import Mathlib

/-!
Shallow embedding of the FTP session handler (`handler.go`, `server.go`)
of the `igneous-systems/ftp` repository, together with theorems checking
the natural-language specification against it.

External collaborators (filesystem, authorizer, data-channel negotiator,
control-channel transport) are modelled as per-command environments that
record the result each external call would return; the handler logic
itself is translated statement by statement from `handler.go`.
-/

namespace Ftp

/-- Classification of Go `error` values as the handler observes them:
`os.IsPermission`, `os.IsNotExist`, the sentinel `errNoDataConn`, and
everything else (tagged so distinct errors stay distinct). -/
inductive GoErr where
  | permission
  | notExist
  | noDataConn
  | other (tag : String)
deriving DecidableEq, Repr

/-- `isPermission` from handler.go: `os.IsPermission(err)` (false on nil). -/
def isPermission : Option GoErr → Bool
  | some .permission => true
  | _ => false

/-- `isNotExist` from handler.go: `os.IsNotExist(err)` (false on nil). -/
def isNotExist : Option GoErr → Bool
  | some .notExist => true
  | _ => false

/-- A wall-clock timestamp as carried by `os.FileInfo.ModTime()`. -/
structure DateTime where
  year : Nat
  month : Nat
  day : Nat
  hour : Nat
  minute : Nat
  second : Nat
deriving DecidableEq, Repr

/-- The parts of `os.FileInfo` the handler reads: `Name`, `Size`,
`IsDir`, `ModTime`. -/
structure FileInfo where
  name : String
  size : Int
  isDir : Bool
  modTime : DateTime
deriving DecidableEq, Repr

/-- One decimal digit character (`0`–`9`) for `n % 10`. -/
def digit (n : Nat) : Char := Char.ofNat (48 + n % 10)

/-- Two-digit zero-padded decimal, as Go `time.Format` layouts `01`..`05`. -/
def pad2 (n : Nat) : String := String.mk [digit (n / 10), digit n]

/-- Four-digit zero-padded decimal, as the Go `time.Format` layout `2006`. -/
def pad4 (n : Nat) : String :=
  String.mk [digit (n / 1000), digit (n / 100), digit (n / 10), digit n]

/-- `t.Format(mdtmFormat)` with `mdtmFormat = "20060102150405"`
(handler.go line 12): the timestamp rendered as `YYYYMMDDhhmmss`,
each field zero-padded. Faithful for in-range fields (year < 10000,
other fields < 100), which Go's normalized `time.Time` guarantees. -/
def formatMdtm (t : DateTime) : String :=
  pad4 t.year ++ pad2 t.month ++ pad2 t.day ++
    pad2 t.hour ++ pad2 t.minute ++ pad2 t.second

/-- One parsed control-channel command: verb `Cmd` plus argument `Msg`. -/
structure Command where
  cmd : String
  msg : String
deriving DecidableEq, Repr

/-- Per-session mutable state: the `Session` fields the handler touches
(`User`, `Password`, `Dir`, `Data`, `TLS`) plus the `fileSession` fields
(`authed`, `renaming` — here `renameFrom` since Lean reserves the word — `epsvOnly`, `restart`).  `data` abstracts
`s.Data != nil`; `protTLS` abstracts `s.TLS != nil`.  The `Session`
fields themselves live in the session source outside this repository;
they are modelled from the spec's Session attribute list (§3). -/
structure SessionState where
  user : String
  password : String
  dir : String
  authed : Bool
  renameFrom : String
  epsvOnly : Bool
  restart : Int
  data : Bool
  protTLS : Bool
deriving DecidableEq, Repr

/-- Modelled from the spec: a fresh session after accept — empty
credentials, root working directory, all sub-protocol state clear,
no data channel (`fileSession` zero values plus Session defaults). -/
def initState : SessionState :=
  { user := "", password := "", dir := "/", authed := false,
    renameFrom := "", epsvOnly := false, restart := 0,
    data := false, protTLS := false }

/-- Server-level configuration visible to the handler: whether an
`Authorizer` is installed, whether `Server.TLS` is non-nil, and the
network family of the control connection (`s.Addr.Network()`). -/
structure Config where
  hasAuthorizer : Bool
  tlsConfigured : Bool
  addrNetwork : String
deriving DecidableEq, Repr

/-- Results of the external calls a transfer helper (`retrieve`,
`store`, `list`) may make, in code order: open/create the filesystem
resource, write the provisional 150 reply, seek, stream (`io.Copy` /
`Lister.WriteTo`), close the resource, close the data channel.
`none` means the call succeeds. -/
structure XferEnv where
  openRes : Option GoErr
  replyRes : Option GoErr
  seekRes : Option GoErr
  copyRes : Option GoErr
  fileCloseRes : Option GoErr
  dataCloseRes : Option GoErr
deriving DecidableEq, Repr

/-- Results of all other external calls one command dispatch may make.
Each field is read only by the command that performs that call. -/
structure Env where
  authOk : Bool
  authErr : Option GoErr
  setTypeRes : Option String
  setModeRes : Option String
  statRes : Except GoErr FileInfo
  mkdirRes : Option GoErr
  removeRes : Option GoErr
  renameRes : Option GoErr
  passiveRes : Option GoErr
  hostPort : String
  port : Nat
  parsePortOk : Bool
  parseEprtOk : Bool
  activeRes : Option GoErr
  statOpenRes : Option GoErr
  readdirRes : Except GoErr (List FileInfo)
  xfer : XferEnv

/-- External calls a dispatch step performs, recorded so theorems can
state that a branch causes no filesystem or negotiation side effect. -/
inductive Ev where
  | statC | mkdirC | removeC | renameC | passiveC | activeC
  | openC | createC | authorizeC | setTypeC | setModeC
deriving DecidableEq, Repr

/-- Outcome of one `handle` call: a status-coded reply written to the
control channel, or an error returned to the loop (which terminates
the session) — the latter arises only from a hard `Authorize` error. -/
inductive HOut where
  | reply (code : Nat) (msg : String)
  | fatal (e : GoErr)
deriving DecidableEq, Repr

/-- Result of one dispatch step: updated state, outcome, call trace. -/
structure StepRes where
  st : SessionState
  out : HOut
  evs : List Ev
deriving DecidableEq, Repr

/-- `strings.ToUpper` restricted to ASCII, which is all the handler
compares against (`ALL`, `UTF8 ON`). -/
def sToUpper (s : String) : String := String.mk (s.data.map Char.toUpper)

/-- `strings.Split` with a one-character separator, on the rune list. -/
def splitCh (sep : Char) : List Char → List (List Char)
  | [] => [[]]
  | c :: rest =>
    match splitCh sep rest with
    | [] => if c = sep then [[], []] else [[c]]
    | g :: gs => if c = sep then [] :: g :: gs else (c :: g) :: gs

/-- `strings.Split(s, sep)` for a one-character separator. -/
def splitStr (sep : Char) (s : String) : List String :=
  (splitCh sep s.data).map String.mk

/-- `strings.Join(parts, sep)`. -/
def joinStr (sep : String) : List String → String
  | [] => ""
  | [x] => x
  | x :: y :: xs => x ++ sep ++ joinStr sep (y :: xs)

/-- `strings.HasPrefix(s, p)` for a one-character pattern. -/
def headIs (c : Char) (s : String) : Bool :=
  match s.data with
  | [] => false
  | d :: _ => d = c

/-- String insertion keeping `≤` order, for `sort.Strings`. -/
def insertStr (x : String) : List String → List String
  | [] => [x]
  | y :: ys => if x ≤ y then x :: y :: ys else y :: insertStr x ys

/-- `sort.Strings`: lexicographic insertion sort. -/
def sortStrs : List String → List String
  | [] => []
  | x :: xs => insertStr x (sortStrs xs)

/-- `fileSession.features`: supported feature keywords, with the TLS
keywords added only when `Server.TLS` is configured, sorted. -/
def features (cfg : Config) : List String :=
  let f := ["EPRT", "EPSV", "MDTM", "PASV", "REST STREAM", "SIZE", "UTF8"]
  let f := if cfg.tlsConfigured then f ++ ["PBSZ", "PROT"] else f
  sortStrs f

/-- The FEAT reply body: `strings.Join` of header, features, footer. -/
def featMsg (cfg : Config) : String :=
  joinStr "\n" (["Extensions supported:"] ++ features cfg ++ ["End."])

/-- The closed enumeration of verbs the two dispatch switches test
for; `unknown` is every other verb. -/
inductive Verb where
  | user | pass | feat | quit
  | syst | type | mode | pwd | cwd | cdup | mkd | size | mdtm
  | dele | rmd | rnfr | rnto | pasv | epsv | port | eprt | rest
  | stat | list | nlst | retr | stor | pbsz | prot | opts | help | noop
  | unknown
deriving DecidableEq, Repr

/-- The verb a command dispatches on: the case labels of the two Go
switch statements. -/
def verbOf (s : String) : Verb :=
  match s with
  | "USER" => .user
  | "PASS" => .pass
  | "FEAT" => .feat
  | "QUIT" => .quit
  | "SYST" => .syst
  | "TYPE" => .type
  | "MODE" => .mode
  | "PWD" => .pwd
  | "CWD" => .cwd
  | "CDUP" => .cdup
  | "MKD" => .mkd
  | "SIZE" => .size
  | "MDTM" => .mdtm
  | "DELE" => .dele
  | "RMD" => .rmd
  | "RNFR" => .rnfr
  | "RNTO" => .rnto
  | "PASV" => .pasv
  | "EPSV" => .epsv
  | "PORT" => .port
  | "EPRT" => .eprt
  | "REST" => .rest
  | "STAT" => .stat
  | "LIST" => .list
  | "NLST" => .nlst
  | "RETR" => .retr
  | "STOR" => .stor
  | "PBSZ" => .pbsz
  | "PROT" => .prot
  | "OPTS" => .opts
  | "HELP" => .help
  | "NOOP" => .noop
  | _ => .unknown

/-- `fileSession.handlePreAuth` (handler.go lines 86–129), translated
case by case.  The authorizer call result comes from the environment
(`authOk`, `authErr`), mirroring Go's `(bool, error)` return. -/
def handlePreAuth (cfg : Config) (env : Env) (st : SessionState)
    (c : Command) : StepRes :=
  match verbOf c.cmd with
  | .user =>
    if st.authed then ⟨st, .reply 530 "Cannot change user.", []⟩
    else if c.msg = "" then ⟨st, .reply 504 "A user name is required.", []⟩
    else ⟨{ st with user := c.msg }, .reply 331 "Please specify the password.", []⟩
  | .pass =>
    if st.authed then ⟨st, .reply 230 "Already logged in.", []⟩
    else if st.user = "" then ⟨st, .reply 503 "Log in with USER first.", []⟩
    else if cfg.hasAuthorizer then
      match env.authErr with
      | some e => ⟨{ st with user := "" }, .fatal e, [.authorizeC]⟩
      | none =>
        if env.authOk = false then
          ⟨{ st with user := "" },
            .reply 430 "Invalid user name or password.", [.authorizeC]⟩
        else
          ⟨{ st with password := c.msg, authed := true },
            .reply 230 "Login successful.", [.authorizeC]⟩
    else
      ⟨{ st with password := c.msg, authed := true },
        .reply 230 "Login successful.", []⟩
  | .feat =>
    ⟨st, .reply 211 (featMsg cfg), []⟩
  | .quit =>
    ⟨st, .reply 211 "Goodbye.", []⟩
  | _ =>
    if st.authed = false then
      ⟨st, .reply 530 "Log in with USER and PASS.", []⟩
    else
      ⟨st, .reply 502 "Not implemented.", []⟩

/-- Collapse path segments, dropping empty and `.` segments and letting
`..` pop the previous segment. -/
def collapseSegs (acc : List String) : List String → List String
  | [] => acc.reverse
  | s :: rest =>
    if s = "" ∨ s = "." then collapseSegs acc rest
    else if s = ".." then collapseSegs acc.tail rest
    else collapseSegs (s :: acc) rest

/-- Modelled from the spec: `Session.Path` lives in the session source
outside this repository; per §4.1 it resolves the argument against the
current working directory and the root, server-rooted, collapsing
`.` and `..`. -/
def pathResolve (dir arg : String) : String :=
  let raw := if headIs '/' arg then arg else dir ++ "/" ++ arg
  "/" ++ joinStr "/" (collapseSegs [] (splitStr '/' raw))

/-- `quote`: the argument in double quotes with internal quotes doubled. -/
def quote (s : String) : String :=
  "\"" ++ String.mk (s.data.flatMap fun c => if c = '"' then ['"', '"'] else [c]) ++ "\""

/-- Decimal digit test on a character. -/
def isDigitCh (c : Char) : Bool := 48 ≤ c.toNat ∧ c.toNat ≤ 57

/-- Numeric value of a digit string. -/
def digitsVal (l : List Char) : Nat :=
  l.foldl (fun a c => a * 10 + (c.toNat - 48)) 0

/-- `strconv.ParseInt(s, 10, 64)`: optional sign, then one or more
decimal digits, value within the signed 64-bit range; `none` models a
non-nil error (syntax or range). -/
def parseInt64 (s : String) : Option Int :=
  let p : Bool × List Char :=
    match s.data with
    | '+' :: rest => (false, rest)
    | '-' :: rest => (true, rest)
    | l => (false, l)
  if p.2.isEmpty then none
  else if p.2.all isDigitCh then
    let v : Int := if p.1 then -(digitsVal p.2 : Int) else (digitsVal p.2 : Int)
    if v < -(2 ^ 63) ∨ (2 ^ 63 : Int) ≤ v then none else some v
  else none

/-- `stripListFlags` first loop: proceed to stripping when the first
non-space character is `-` or the string runs out; any other character
first means the argument is returned unchanged. -/
def listShouldStrip : List Char → Bool
  | [] => true
  | c :: rest =>
    if c = '-' then true
    else if c = ' ' then listShouldStrip rest
    else false

/-- `stripListFlags`: remove shell-style `-x` tokens from a LIST/NLST
argument when the argument leads with one. -/
def stripListFlags (s : String) : String :=
  if listShouldStrip s.data then
    joinStr " " ((splitStr ' ' s).filter (fun t => headIs '-' t = false))
  else s

/-- Result of one transfer helper: the error it returns, and which
resources it opened, reached, and closed along the way. -/
structure XferRes where
  err : Option GoErr
  opened : Bool
  fileClosed : Bool
  dataClosed : Bool
  sought : Bool
  copied : Bool
deriving DecidableEq, Repr

/-- `fileSession.retrieve` (handler.go lines 401–430): guard on the
data channel, open, provisional 150 reply, seek when `restart > 0`,
`io.Copy`, close the file (result discarded), close the data channel
(result returned). Every failure path closes what was opened. -/
def retrieve (st : SessionState) (env : XferEnv) : XferRes :=
  if st.data = false then ⟨some .noDataConn, false, false, false, false, false⟩
  else
    match env.openRes with
    | some e => ⟨some e, false, false, true, false, false⟩
    | none =>
      match env.replyRes with
      | some e => ⟨some e, true, true, true, false, false⟩
      | none =>
        if 0 < st.restart then
          match env.seekRes with
          | some e => ⟨some e, true, true, true, true, false⟩
          | none =>
            match env.copyRes with
            | some e => ⟨some e, true, true, true, true, true⟩
            | none => ⟨env.dataCloseRes, true, true, true, true, true⟩
        else
          match env.copyRes with
          | some e => ⟨some e, true, true, true, false, true⟩
          | none => ⟨env.dataCloseRes, true, true, true, false, true⟩

/-- `fileSession.store` (handler.go lines 433–463): like `retrieve`
with `Create` in place of `Open` and the copy direction reversed; the
success path returns the file-close error and discards the data-channel
close error. -/
def store (st : SessionState) (env : XferEnv) : XferRes :=
  if st.data = false then ⟨some .noDataConn, false, false, false, false, false⟩
  else
    match env.openRes with
    | some e => ⟨some e, false, false, true, false, false⟩
    | none =>
      match env.replyRes with
      | some e => ⟨some e, true, true, true, false, false⟩
      | none =>
        if 0 < st.restart then
          match env.seekRes with
          | some e => ⟨some e, true, true, true, true, false⟩
          | none =>
            match env.copyRes with
            | some e => ⟨some e, true, true, true, true, true⟩
            | none => ⟨env.fileCloseRes, true, true, true, true, true⟩
        else
          match env.copyRes with
          | some e => ⟨some e, true, true, true, false, true⟩
          | none => ⟨env.fileCloseRes, true, true, true, false, true⟩

/-- `fileSession.list` (handler.go lines 488–514): like `retrieve` but
with no seek stage, the bytes produced by the `Lister` (its `WriteTo`
result is `copyRes`), and the data-channel close error returned on the
success path. -/
def list (st : SessionState) (env : XferEnv) : XferRes :=
  if st.data = false then ⟨some .noDataConn, false, false, false, false, false⟩
  else
    match env.openRes with
    | some e => ⟨some e, false, false, true, false, false⟩
    | none =>
      match env.replyRes with
      | some e => ⟨some e, true, true, true, false, false⟩
      | none =>
        match env.copyRes with
        | some e => ⟨some e, true, true, true, false, true⟩
        | none => ⟨env.dataCloseRes, true, true, true, false, true⟩

/-- Modelled from the spec: the `Lister` renders directory entries
(external listing formatter, §6); only the line count and joining are
observable to the handler, so entries render as their names. -/
def listLines (l : List FileInfo) : List String := l.map (·.name)

/-- `fileSession.stat` (handler.go lines 466–485): stat the raw
argument; a non-directory yields its own entry, a directory is opened
and read (closing the handle on both paths). -/
def statHelper (env : Env) : Except GoErr (List FileInfo) :=
  match env.statRes with
  | .error e => .error e
  | .ok info =>
    if info.isDir = false then .ok [info]
    else
      match env.statOpenRes with
      | some e => .error e
      | none => env.readdirRes

/-- State of the session after a transfer helper ran: `CloseData` (from
the session source, modelled from the spec) clears the data channel. -/
def afterXfer (st : SessionState) (r : XferRes) : SessionState :=
  if r.dataClosed then { st with data := false } else st

/-- `fileSession.handlePostAuth` (handler.go lines 131–386), translated
case by case in source order; the final default delegates to
`handlePreAuth` exactly as the source does. -/
def handlePostAuth (cfg : Config) (env : Env) (st : SessionState)
    (c : Command) : StepRes :=
  match verbOf c.cmd with
  | .syst =>
    ⟨st, .reply 215 "UNIX Type: L8", []⟩
  | .type =>
    match env.setTypeRes with
    | some emsg => ⟨st, .reply 504 emsg, [.setTypeC]⟩
    | none => ⟨st, .reply 200 "Type switched successfully.", [.setTypeC]⟩
  | .mode =>
    match env.setModeRes with
    | some emsg => ⟨st, .reply 504 emsg, [.setModeC]⟩
    | none => ⟨st, .reply 200 "Mode switched successfully.", [.setModeC]⟩
  | .pwd =>
    ⟨st, .reply 257 (quote (pathResolve st.dir "") ++ " is the current directory."), []⟩
  | .cwd =>
    if c.msg = "" then ⟨st, .reply 550 "Failed to change directory.", []⟩
    else
      match env.statRes with
      | .error .permission => ⟨st, .reply 550 "Insufficient permissions.", [.statC]⟩
      | .error .notExist => ⟨st, .reply 550 "No such directory.", [.statC]⟩
      | .error _ => ⟨st, .reply 550 "Failed to change directory.", [.statC]⟩
      | .ok info =>
        if info.isDir = false then
          ⟨st, .reply 550 "Failed to change directory.", [.statC]⟩
        else
          ⟨{ st with dir := pathResolve st.dir c.msg },
            .reply 250 "Directory successfully changed.", [.statC]⟩
  | .cdup =>
    match env.statRes with
    | .error .permission => ⟨st, .reply 550 "Insufficient permissions.", [.statC]⟩
    | .error .notExist => ⟨st, .reply 550 "No such directory.", [.statC]⟩
    | .error _ => ⟨st, .reply 550 "Failed to change directory.", [.statC]⟩
    | .ok info =>
      if info.isDir = false then
        ⟨st, .reply 550 "Failed to change directory.", [.statC]⟩
      else
        ⟨{ st with dir := pathResolve st.dir ".." },
          .reply 250 "Directory successfully changed.", [.statC]⟩
  | .mkd =>
    match env.mkdirRes with
    | some _ => ⟨st, .reply 550 "Failed to create directory.", [.mkdirC]⟩
    | none =>
      ⟨st, .reply 257 (quote (pathResolve st.dir c.msg) ++ " created."), [.mkdirC]⟩
  | .size =>
    match env.statRes with
    | .error .permission => ⟨st, .reply 550 "Insufficient permissions.", [.statC]⟩
    | .error .notExist => ⟨st, .reply 550 "No such file.", [.statC]⟩
    | .error _ => ⟨st, .reply 550 "Could not get size.", [.statC]⟩
    | .ok info =>
      if info.isDir then ⟨st, .reply 550 "Path specifies a directory.", [.statC]⟩
      else ⟨st, .reply 213 (toString info.size), [.statC]⟩
  | .mdtm =>
    match env.statRes with
    | .error .permission => ⟨st, .reply 550 "Insufficient permissions.", [.statC]⟩
    | .error .notExist => ⟨st, .reply 550 "No such file or directory.", [.statC]⟩
    | .error _ => ⟨st, .reply 550 "Could not get size.", [.statC]⟩
    | .ok info =>
      if info.isDir then ⟨st, .reply 550 "Could not get size.", [.statC]⟩
      else ⟨st, .reply 213 (formatMdtm info.modTime), [.statC]⟩
  | .dele | .rmd =>
    if c.msg = "" then ⟨st, .reply 501 "A file name is required.", []⟩
    else
      match env.removeRes with
      | some .permission => ⟨st, .reply 550 "Insufficient permissions.", [.removeC]⟩
      | some .notExist => ⟨st, .reply 550 "No such file.", [.removeC]⟩
      | some _ => ⟨st, .reply 550 "Could not delete file.", [.removeC]⟩
      | none => ⟨st, .reply 250 "Successfully deleted file.", [.removeC]⟩
  | .rnfr =>
    if c.msg = "" then ⟨st, .reply 501 "A file name is required.", []⟩
    else
      ⟨{ st with renameFrom := pathResolve st.dir c.msg },
        .reply 350 "Call RNTO to specify destination.", []⟩
  | .rnto =>
    if c.msg = "" then ⟨st, .reply 501 "A file name is required.", []⟩
    else if st.renameFrom = "" then ⟨st, .reply 503 "Call RNFR first.", []⟩
    else
      match env.renameRes with
      | some .permission => ⟨st, .reply 550 "Insufficient permissions.", [.renameC]⟩
      | some .notExist => ⟨st, .reply 550 "No such file.", [.renameC]⟩
      | some _ => ⟨st, .reply 550 "Could not rename file.", [.renameC]⟩
      | none => ⟨st, .reply 250 "Successfully renamed file.", [.renameC]⟩
  | .pasv =>
    if st.epsvOnly then ⟨st, .reply 550 "PASV is disallowed.", []⟩
    else
      match env.passiveRes with
      | some _ => ⟨st, .reply 425 "Can\x27t open data connection.", [.passiveC]⟩
      | none =>
        ⟨{ st with data := true },
          .reply 227 ("Entering Passive Mode (" ++ env.hostPort ++ ")."), [.passiveC]⟩
  | .epsv =>
    if sToUpper c.msg = "ALL" then
      ⟨{ st with epsvOnly := true }, .reply 200 "EPSV ALL ok.", []⟩
    else
      if c.msg = "1" ∨ c.msg = "2" ∨ c.msg = "" then
        match env.passiveRes with
        | some _ => ⟨st, .reply 425 "Can\x27t open data connection.", [.passiveC]⟩
        | none =>
          ⟨{ st with data := true },
            .reply 229 ("Entering Extended Passive Mode (|||" ++ toString env.port ++ "|)"),
            [.passiveC]⟩
      else ⟨st, .reply 522 "Unsupported protocol.", []⟩
  | .port =>
    if st.epsvOnly then ⟨st, .reply 550 "PORT is disallowed.", []⟩
    else if env.parsePortOk = false then ⟨st, .reply 501 "Invalid syntax.", []⟩
    else
      match env.activeRes with
      | some _ => ⟨st, .reply 550 "Failed to connect.", [.activeC]⟩
      | none => ⟨{ st with data := true }, .reply 200 "OK", [.activeC]⟩
  | .eprt =>
    if st.epsvOnly then ⟨st, .reply 550 "EPRT is disallowed.", []⟩
    else if env.parseEprtOk = false then ⟨st, .reply 501 "Invalid syntax.", []⟩
    else
      match env.activeRes with
      | some _ => ⟨st, .reply 550 "Failed to connect.", [.activeC]⟩
      | none => ⟨{ st with data := true }, .reply 200 "OK", [.activeC]⟩
  | .rest =>
    match parseInt64 c.msg with
    | none => ⟨st, .reply 501 "Invalid syntax.", []⟩
    | some n =>
      if n < 0 then ⟨st, .reply 501 "Invalid syntax.", []⟩
      else
        ⟨{ st with restart := n },
          .reply 350 ("Restart position accepted (" ++ toString n ++ ")."), []⟩
  | .stat =>
    if c.msg = "" then ⟨st, .reply 211 "Looks good to me.", []⟩
    else
      match statHelper env with
      | .error .permission => ⟨st, .reply 550 "Insufficient permissions.", [.statC]⟩
      | .error .notExist => ⟨st, .reply 550 "No such file or directory.", [.statC]⟩
      | .error _ => ⟨st, .reply 550 "Error retrieving status.", [.statC]⟩
      | .ok l =>
        ⟨st, .reply 213
          (joinStr "\n" (["Status:"] ++ listLines l ++ ["End."])), [.statC]⟩
  | .list | .nlst =>
    let r := list st env.xfer
    let st2 := afterXfer st r
    let evs := if st.data then [Ev.openC] else []
    match r.err with
    | some .noDataConn => ⟨st2, .reply 425 "Use PORT or PASV first.", evs⟩
    | some .permission => ⟨st2, .reply 550 "Insufficient permissions.", evs⟩
    | some .notExist => ⟨st2, .reply 550 "No such directory.", evs⟩
    | some _ => ⟨st2, .reply 550 "Error listing directory.", evs⟩
    | none => ⟨st2, .reply 226 "Directory send OK.", evs⟩
  | .retr =>
    let r := retrieve st env.xfer
    let st2 := afterXfer st r
    let evs := if st.data then [Ev.openC] else []
    match r.err with
    | some .noDataConn => ⟨st2, .reply 425 "Use PORT or PASV first.", evs⟩
    | some .permission => ⟨st2, .reply 550 "Insufficient permissions.", evs⟩
    | some .notExist => ⟨st2, .reply 550 "No such file.", evs⟩
    | some _ => ⟨st2, .reply 550 "Error retrieving file.", evs⟩
    | none => ⟨st2, .reply 226 "Transfer complete.", evs⟩
  | .stor =>
    let r := store st env.xfer
    let st2 := afterXfer st r
    let evs := if st.data then [Ev.createC] else []
    match r.err with
    | some .noDataConn => ⟨st2, .reply 425 "Use PORT or PASV first.", evs⟩
    | some .permission => ⟨st2, .reply 550 "Insufficient permissions.", evs⟩
    | some _ => ⟨st2, .reply 550 "Error storing file.", evs⟩
    | none => ⟨st2, .reply 226 "Transfer complete.", evs⟩
  | .pbsz =>
    if cfg.tlsConfigured = false then ⟨st, .reply 502 "Not implemented.", []⟩
    else if c.msg = "0" then ⟨st, .reply 200 "OK.", []⟩
    else ⟨st, .reply 534 "Unacceptable buffer size. PBSZ=0", []⟩
  | .prot =>
    if cfg.tlsConfigured = false then ⟨st, .reply 502 "Not implemented.", []⟩
    else if c.msg = "P" then
      ⟨{ st with protTLS := true }, .reply 200 "Protection level changed.", []⟩
    else if c.msg = "C" then
      ⟨{ st with protTLS := false }, .reply 200 "Protection level changed.", []⟩
    else ⟨st, .reply 504 "Unsupported protection level.", []⟩
  | .opts =>
    if sToUpper c.msg = "UTF8 ON" then ⟨st, .reply 200 "Always in UTF8 mode.", []⟩
    else ⟨st, .reply 501 "Option not understood.", []⟩
  | .help =>
    ⟨st, .reply 214 ("The following commands are recognized.\n" ++
      "CDUP CWD  DELE EPRT EPSV FEAT HELP LIST MDTM MKD  MODE NLST NOOP OPTS\n" ++
      "PASS PASV PBSZ PORT PROT PWD  QUIT REST RETR RMD  RNFR RNTO SIZE STAT\n" ++
      "STOR SYST TYPE USER\nHelp OK."), []⟩
  | .noop =>
    ⟨st, .reply 200 "OK.", []⟩
  | _ =>
    handlePreAuth cfg env st c

/-- `fileSession.handle`: route to the pre- or post-auth table on the
`authed` flag. -/
def handle (cfg : Config) (env : Env) (st : SessionState)
    (c : Command) : StepRes :=
  if st.authed = false then handlePreAuth cfg env st c
  else handlePostAuth cfg env st c

/-- What one iteration of `fileSession.Handle` reports to the loop. -/
inductive LoopOut where
  | cont (code : Nat) (msg : String)
  | quit (code : Nat) (msg : String)
  | fatal (e : GoErr)
deriving DecidableEq, Repr

/-- One iteration of the `fileSession.Handle` loop (handler.go lines
58–77): dispatch the command; a handler error ends the session; QUIT
ends it after the reply; otherwise clear the pending rename unless the
command was RNFR and the restart offset unless it was REST. -/
def stepLoop (cfg : Config) (st : SessionState) (c : Command)
    (env : Env) : SessionState × LoopOut :=
  let r := handle cfg env st c
  match r.out with
  | .fatal e => (r.st, .fatal e)
  | .reply code msg =>
    if c.cmd = "QUIT" then (r.st, .quit code msg)
    else
      let st1 := if c.cmd ≠ "RNFR" then { r.st with renameFrom := "" } else r.st
      let st2 := if c.cmd ≠ "REST" then { st1 with restart := 0 } else st1
      (st2, .cont code msg)

/-- The `fileSession.Handle` loop run over a list of commands (each
paired with the results its external calls would produce), stopping at
QUIT or a handler error, returning the final session state. -/
def run (cfg : Config) (st : SessionState) :
    List (Command × Env) → SessionState
  | [] => st
  | (c, env) :: rest =>
    match stepLoop cfg st c env with
    | (st', .cont _ _) => run cfg st' rest
    | (st', _) => st'

/-- A sample server configuration for concrete evaluations. -/
def sampleCfg : Config :=
  { hasAuthorizer := true, tlsConfigured := false, addrNetwork := "tcp4" }

/-- A sample transfer environment in which every external call succeeds. -/
def sampleXfer : XferEnv :=
  { openRes := none, replyRes := none, seekRes := none, copyRes := none,
    fileCloseRes := none, dataCloseRes := none }

/-- A sample environment in which every external call succeeds. -/
def sampleEnv : Env :=
  { authOk := true, authErr := none, setTypeRes := none, setModeRes := none,
    statRes := .ok ⟨"f", 5, false, ⟨2020, 1, 2, 3, 4, 5⟩⟩, mkdirRes := none,
    removeRes := none, renameRes := none, passiveRes := none, hostPort := "h",
    port := 1025, parsePortOk := true, parseEprtOk := true, activeRes := none,
    statOpenRes := none, readdirRes := .ok [], xfer := sampleXfer }

/-- A sample authenticated session state. -/
def authedState : SessionState := { initState with authed := true }

/-- The first error among the outcome-determining steps of a transfer
(open, provisional 150 reply, seek when the helper seeks, stream), in
the order the code performs them.  `seeks` is true for `retrieve` and
`store`, which seek when the restart offset is positive, and false for
`list`. -/
def mainErr (st : SessionState) (env : XferEnv) (seeks : Bool) : Option GoErr :=
  match env.openRes with
  | some e => some e
  | none =>
    match env.replyRes with
    | some e => some e
    | none =>
      if seeks ∧ 0 < st.restart then
        match env.seekRes with
        | some e => some e
        | none => env.copyRes
      else env.copyRes

/-- The first error encountered anywhere along `retrieve`, close
results included, in the order the code performs the calls — the
claim's reading of "the first error encountered along the operation"
for a RETR that reaches its success path. -/
def firstErrRetr (st : SessionState) (env : XferEnv) : Option GoErr :=
  match mainErr st env true with
  | some e => some e
  | none =>
    match env.fileCloseRes with
    | some e => some e
    | none => env.dataCloseRes

/-- Ground values of `verbOf` at each recognized verb. -/
@[simp]
theorem verbOf_USER : verbOf "USER" = Verb.user := rfl

@[simp]
theorem verbOf_PASS : verbOf "PASS" = Verb.pass := rfl

@[simp]
theorem verbOf_FEAT : verbOf "FEAT" = Verb.feat := rfl

@[simp]
theorem verbOf_QUIT : verbOf "QUIT" = Verb.quit := rfl

@[simp]
theorem verbOf_SYST : verbOf "SYST" = Verb.syst := rfl

@[simp]
theorem verbOf_TYPE : verbOf "TYPE" = Verb.type := rfl

@[simp]
theorem verbOf_MODE : verbOf "MODE" = Verb.mode := rfl

@[simp]
theorem verbOf_PWD : verbOf "PWD" = Verb.pwd := rfl

@[simp]
theorem verbOf_CWD : verbOf "CWD" = Verb.cwd := rfl

@[simp]
theorem verbOf_CDUP : verbOf "CDUP" = Verb.cdup := rfl

@[simp]
theorem verbOf_MKD : verbOf "MKD" = Verb.mkd := rfl

@[simp]
theorem verbOf_SIZE : verbOf "SIZE" = Verb.size := rfl

@[simp]
theorem verbOf_MDTM : verbOf "MDTM" = Verb.mdtm := rfl

@[simp]
theorem verbOf_DELE : verbOf "DELE" = Verb.dele := rfl

@[simp]
theorem verbOf_RMD : verbOf "RMD" = Verb.rmd := rfl

@[simp]
theorem verbOf_RNFR : verbOf "RNFR" = Verb.rnfr := rfl

@[simp]
theorem verbOf_RNTO : verbOf "RNTO" = Verb.rnto := rfl

@[simp]
theorem verbOf_PASV : verbOf "PASV" = Verb.pasv := rfl

@[simp]
theorem verbOf_EPSV : verbOf "EPSV" = Verb.epsv := rfl

@[simp]
theorem verbOf_PORT : verbOf "PORT" = Verb.port := rfl

@[simp]
theorem verbOf_EPRT : verbOf "EPRT" = Verb.eprt := rfl

@[simp]
theorem verbOf_REST : verbOf "REST" = Verb.rest := rfl

@[simp]
theorem verbOf_STAT : verbOf "STAT" = Verb.stat := rfl

@[simp]
theorem verbOf_LIST : verbOf "LIST" = Verb.list := rfl

@[simp]
theorem verbOf_NLST : verbOf "NLST" = Verb.nlst := rfl

@[simp]
theorem verbOf_RETR : verbOf "RETR" = Verb.retr := rfl

@[simp]
theorem verbOf_STOR : verbOf "STOR" = Verb.stor := rfl

@[simp]
theorem verbOf_PBSZ : verbOf "PBSZ" = Verb.pbsz := rfl

@[simp]
theorem verbOf_PROT : verbOf "PROT" = Verb.prot := rfl

@[simp]
theorem verbOf_OPTS : verbOf "OPTS" = Verb.opts := rfl

@[simp]
theorem verbOf_HELP : verbOf "HELP" = Verb.help := rfl

@[simp]
theorem verbOf_NOOP : verbOf "NOOP" = Verb.noop := rfl

theorem verbOf_iff_user (s : String) : verbOf s = Verb.user ↔ s = "USER" := by
  unfold verbOf
  constructor
  · intro h; split at h <;> simp_all
  · intro h; subst h; simp

theorem verbOf_iff_pass (s : String) : verbOf s = Verb.pass ↔ s = "PASS" := by
  unfold verbOf
  constructor
  · intro h; split at h <;> simp_all
  · intro h; subst h; simp

theorem verbOf_iff_feat (s : String) : verbOf s = Verb.feat ↔ s = "FEAT" := by
  unfold verbOf
  constructor
  · intro h; split at h <;> simp_all
  · intro h; subst h; simp

theorem verbOf_iff_quit (s : String) : verbOf s = Verb.quit ↔ s = "QUIT" := by
  unfold verbOf
  constructor
  · intro h; split at h <;> simp_all
  · intro h; subst h; simp

/-- C1 (counterexample): before authentication, HELP and NOOP do NOT
bypass the gate — `handlePreAuth` has no case for them, so its default
branch replies 530 "Log in with USER and PASS.", contradicting the
claim that HELP and NOOP are handled without that reply. -/
theorem c1_help_noop_get_530 :
    (handle sampleCfg sampleEnv initState ⟨"HELP", ""⟩).out
        = .reply 530 "Log in with USER and PASS." ∧
    (handle sampleCfg sampleEnv initState ⟨"NOOP", ""⟩).out
        = .reply 530 "Log in with USER and PASS." := by
  decide

/-- C1 (amended): for every session in which authentication has not
yet succeeded, dispatching any command whose verb is not USER, PASS,
FEAT, or QUIT yields the "not logged in" (530) reply, while USER,
PASS, FEAT, and QUIT are handled without any 530 reply (HELP and NOOP
are only available after authentication). -/
theorem c1_preauth_gate (cfg : Config) (env : Env) (st : SessionState)
    (c : Command) (hauth : st.authed = false) :
    (c.cmd ∉ (["USER", "PASS", "FEAT", "QUIT"] : List String) →
      (handle cfg env st c).out = .reply 530 "Log in with USER and PASS.") ∧
    (c.cmd ∈ (["USER", "PASS", "FEAT", "QUIT"] : List String) →
      ∀ m, (handle cfg env st c).out ≠ .reply 530 m) := by
  constructor
  · intro hmem
    simp only [List.mem_cons, List.not_mem_nil, or_false, not_or] at hmem
    obtain ⟨h1, h2, h3, h4⟩ := hmem
    unfold handle handlePreAuth
    cases hv : verbOf c.cmd <;>
      simp_all [hauth, verbOf_iff_user, verbOf_iff_pass, verbOf_iff_feat,
        verbOf_iff_quit]
  · intro hmem m
    simp only [List.mem_cons, List.not_mem_nil, or_false] at hmem
    unfold handle handlePreAuth
    rcases hmem with h | h | h | h <;>
      simp only [h, hauth, verbOf_USER, verbOf_PASS, verbOf_FEAT, verbOf_QUIT] <;>
      (iterate 6 (all_goals (try split))) <;> simp_all

/-- C1 witness: a pre-auth RETR hits the 530 gate. -/
theorem c1_preauth_gate_witness :
    (handle sampleCfg sampleEnv initState ⟨"RETR", "f"⟩).out
      = .reply 530 "Log in with USER and PASS." :=
  (c1_preauth_gate sampleCfg sampleEnv initState ⟨"RETR", "f"⟩ rfl).1 (by decide)

/-- C2: in an unauthenticated session with an Authorizer configured,
PASS before any successful USER replies 503; a negative authorization
result clears the pending username and replies 430 while the loop
continues; a hard Authorizer error clears the pending username and
terminates the session; a positive result sets the authenticated flag
and records the password. -/
theorem c2_pass_authorizer (cfg : Config) (env : Env) (st : SessionState)
    (m : String) (hauth : st.authed = false)
    (hcfg : cfg.hasAuthorizer = true) :
    (st.user = "" →
      handle cfg env st ⟨"PASS", m⟩
        = ⟨st, .reply 503 "Log in with USER first.", []⟩) ∧
    (st.user ≠ "" → env.authErr = none → env.authOk = false →
      handle cfg env st ⟨"PASS", m⟩
          = ⟨{ st with user := "" },
              .reply 430 "Invalid user name or password.", [.authorizeC]⟩ ∧
        (stepLoop cfg st ⟨"PASS", m⟩ env).2
          = .cont 430 "Invalid user name or password.") ∧
    (st.user ≠ "" → ∀ e, env.authErr = some e →
      handle cfg env st ⟨"PASS", m⟩
          = ⟨{ st with user := "" }, .fatal e, [.authorizeC]⟩ ∧
        (stepLoop cfg st ⟨"PASS", m⟩ env).2 = .fatal e) ∧
    (st.user ≠ "" → env.authErr = none → env.authOk = true →
      handle cfg env st ⟨"PASS", m⟩
        = ⟨{ st with password := m, authed := true },
            .reply 230 "Login successful.", [.authorizeC]⟩) := by
  refine ⟨fun hu => ?_, fun hu he ho => ?_, fun hu e he => ?_, fun hu he ho => ?_⟩ <;>
    simp_all [handle, handlePreAuth, stepLoop]

/-- C2 witness: with user "alice" pending and a rejecting Authorizer,
PASS gets 430 and the username is cleared without ending the session. -/
theorem c2_pass_authorizer_witness :
    handle sampleCfg { sampleEnv with authOk := false }
        { initState with user := "alice" } ⟨"PASS", "wrong"⟩
      = ⟨{ { initState with user := "alice" } with user := "" },
          .reply 430 "Invalid user name or password.", [.authorizeC]⟩ :=
  ((c2_pass_authorizer sampleCfg { sampleEnv with authOk := false }
      { initState with user := "alice" } "wrong" rfl rfl).2.1
    (by decide) rfl rfl).1

/-- After a continuing non-RNFR command, the loop has cleared the
pending rename source (handler.go lines 70–72). -/
theorem stepLoop_clears_renameFrom (cfg : Config) (env : Env)
    (st : SessionState) (c : Command) (code : Nat) (msg : String)
    (hne : c.cmd ≠ "RNFR") (hcont : (stepLoop cfg st c env).2 = .cont code msg) :
    (stepLoop cfg st c env).1.renameFrom = "" := by
  simp only [stepLoop] at hcont ⊢
  cases hout : (handle cfg env st c).out with
  | fatal e => rw [hout] at hcont; simp at hcont
  | reply code' msg' =>
    by_cases hq : c.cmd = "QUIT"
    · rw [hout] at hcont; simp [hq] at hcont
    · simp only [hq, hne]
      split <;> (try split) <;> simp_all

/-- After a continuing non-REST command, the loop has cleared the
restart offset (handler.go lines 73–75). -/
theorem stepLoop_clears_restart (cfg : Config) (env : Env)
    (st : SessionState) (c : Command) (code : Nat) (msg : String)
    (hne : c.cmd ≠ "REST") (hcont : (stepLoop cfg st c env).2 = .cont code msg) :
    (stepLoop cfg st c env).1.restart = 0 := by
  simp only [stepLoop] at hcont ⊢
  cases hout : (handle cfg env st c).out with
  | fatal e => rw [hout] at hcont; simp at hcont
  | reply code' msg' =>
    by_cases hq : c.cmd = "QUIT"
    · rw [hout] at hcont; simp [hq] at hcont
    · simp only [hq, hne]
      split <;> (try split) <;> simp_all

/-- C3 (counterexample): an RNTO with an empty argument whose
immediately preceding command was not RNFR replies 501 "A file name is
required.", not the claimed 503 "Call RNFR first." — the empty-argument
check comes first. -/
theorem c3_rnto_empty_arg_gets_501 :
    (stepLoop sampleCfg authedState ⟨"NOOP", ""⟩ sampleEnv).2
        = .cont 200 "OK." ∧
    (handle sampleCfg sampleEnv
        (stepLoop sampleCfg authedState ⟨"NOOP", ""⟩ sampleEnv).1
        ⟨"RNTO", ""⟩).out
      = .reply 501 "A file name is required." ∧
    (501 : Nat) ≠ 503 := by
  decide

/-- C3 (amended): the pending-rename source path is set by RNFR (with
a non-empty argument) and cleared by every subsequent continuing
command other than RNFR; consequently an RNTO with a non-empty
argument whose pending rename is clear replies 503 "Call RNFR first."
without invoking the filesystem rename (an RNTO with an empty argument
replies 501 first). -/
theorem c3_rename_protocol :
    (∀ (cfg : Config) (env : Env) (st : SessionState) (c : Command)
        (code : Nat) (msg : String), c.cmd ≠ "RNFR" →
        (stepLoop cfg st c env).2 = .cont code msg →
        (stepLoop cfg st c env).1.renameFrom = "") ∧
    (∀ (cfg : Config) (env : Env) (st : SessionState) (m : String),
        st.authed = true → m ≠ "" →
        (stepLoop cfg st ⟨"RNFR", m⟩ env).1.renameFrom
          = pathResolve st.dir m) ∧
    (∀ (cfg : Config) (env : Env) (st : SessionState) (m : String),
        st.authed = true → st.renameFrom = "" → m ≠ "" →
        handle cfg env st ⟨"RNTO", m⟩
          = ⟨st, .reply 503 "Call RNFR first.", []⟩) := by
  refine ⟨fun cfg env st c code msg hne hcont =>
      stepLoop_clears_renameFrom cfg env st c code msg hne hcont,
    fun cfg env st m hauth hm => ?_, fun cfg env st m hauth hr hm => ?_⟩ <;>
    simp_all [stepLoop, handle, handlePostAuth, handlePreAuth]

/-- C3 witness: RNFR records the source; a following NOOP clears it;
the RNTO after that gets 503 without a rename call. -/
theorem c3_rename_protocol_witness :
    (stepLoop sampleCfg
        (stepLoop sampleCfg authedState ⟨"RNFR", "a"⟩ sampleEnv).1
        ⟨"NOOP", ""⟩ sampleEnv).1.renameFrom = "" ∧
    handle sampleCfg sampleEnv authedState ⟨"RNTO", "b"⟩
      = ⟨authedState, .reply 503 "Call RNFR first.", []⟩ := by
  constructor
  · exact c3_rename_protocol.1 sampleCfg sampleEnv
      (stepLoop sampleCfg authedState ⟨"RNFR", "a"⟩ sampleEnv).1
      ⟨"NOOP", ""⟩ 200 "OK." (by decide) (by decide)
  · exact c3_rename_protocol.2.2 sampleCfg sampleEnv authedState "b"
      rfl rfl (by decide)

/-- C4: REST records a non-negative byte offset, rejecting with 501
(offset untouched) any argument that does not parse as a non-negative
decimal integer; the next RETR or STOR applies a positive offset as a
seek before streaming, a seek failure aborting the transfer before the
copy; and a continuing command other than REST resets the offset to
zero. -/
theorem c4_restart_protocol :
    (∀ (cfg : Config) (env : Env) (st : SessionState) (m : String) (n : Int),
        st.authed = true → parseInt64 m = some n → 0 ≤ n →
        handle cfg env st ⟨"REST", m⟩
          = ⟨{ st with restart := n },
              .reply 350 ("Restart position accepted (" ++ toString n ++ ")."),
              []⟩) ∧
    (∀ (cfg : Config) (env : Env) (st : SessionState) (m : String),
        st.authed = true →
        (parseInt64 m = none ∨ ∃ n, parseInt64 m = some n ∧ n < 0) →
        (handle cfg env st ⟨"REST", m⟩).out = .reply 501 "Invalid syntax." ∧
          (handle cfg env st ⟨"REST", m⟩).st = st) ∧
    (∀ (st : SessionState) (env : XferEnv),
        st.data = true → env.openRes = none → env.replyRes = none →
        ((0 < st.restart →
            (retrieve st env).sought = true ∧ (store st env).sought = true ∧
            (∀ e, env.seekRes = some e →
              (retrieve st env).err = some e ∧ (retrieve st env).copied = false ∧
              (store st env).err = some e ∧ (store st env).copied = false)) ∧
          (st.restart ≤ 0 →
            (retrieve st env).sought = false ∧ (store st env).sought = false))) ∧
    (∀ (cfg : Config) (env : Env) (st : SessionState) (c : Command)
        (code : Nat) (msg : String), c.cmd ≠ "REST" →
        (stepLoop cfg st c env).2 = .cont code msg →
        (stepLoop cfg st c env).1.restart = 0) := by
  refine ⟨fun cfg env st m n hauth hp hn => ?_,
    fun cfg env st m hauth hp => ?_,
    fun st env hd ho hr => ⟨fun hpos => ?_, fun hnp => ?_⟩,
    fun cfg env st c code msg hne hcont =>
      stepLoop_clears_restart cfg env st c code msg hne hcont⟩
  · have hn' : ¬ n < 0 := not_lt.mpr hn
    simp [handle, handlePostAuth, handlePreAuth, hauth, hp, hn']
  · rcases hp with hp | ⟨n, hp, hn⟩
    · simp [handle, handlePostAuth, handlePreAuth, hauth, hp]
    · simp [handle, handlePostAuth, handlePreAuth, hauth, hp, hn]
  · cases hs : env.seekRes <;> cases hc : env.copyRes <;>
      simp_all [retrieve, store, hpos]
  · cases hc : env.copyRes <;>
      simp_all [retrieve, store, not_lt.mpr hnp]

/-- C4 witness: REST 7 records offset 7; with the offset positive, a
failing seek aborts a RETR before any copy; REST "x" gets 501. -/
theorem c4_restart_protocol_witness :
    handle sampleCfg sampleEnv authedState ⟨"REST", "7"⟩
        = ⟨{ authedState with restart := 7 },
            .reply 350 "Restart position accepted (7).", []⟩ ∧
    (retrieve { authedState with data := true, restart := 7 }
        { sampleXfer with seekRes := some (.other "seek failed") }).err
        = some (.other "seek failed") ∧
    (handle sampleCfg sampleEnv authedState ⟨"REST", "x"⟩).out
        = .reply 501 "Invalid syntax." := by
  refine ⟨?_, ?_, ?_⟩
  · exact c4_restart_protocol.1 sampleCfg sampleEnv authedState "7" 7
      rfl (by decide) (by decide)
  · exact ((((c4_restart_protocol.2.2.1
      { authedState with data := true, restart := 7 }
      { sampleXfer with seekRes := some (.other "seek failed") }
      rfl rfl rfl).1 (by decide)).2.2 (.other "seek failed") rfl)).1
  · exact (c4_restart_protocol.2.1 sampleCfg sampleEnv authedState "x"
      rfl (Or.inl (by decide))).1

/-- Closing a transfer's data channel does not touch the lock. -/
theorem afterXfer_epsvOnly (st : SessionState) (r : XferRes) :
    (afterXfer st r).epsvOnly = st.epsvOnly := by
  unfold afterXfer; split <;> rfl

/-- Closing a transfer's data channel does not touch the offset. -/
theorem afterXfer_restart (st : SessionState) (r : XferRes) :
    (afterXfer st r).restart = st.restart := by
  unfold afterXfer; split <;> rfl

/-- No handler branch ever clears the passive-only lock: `epsvOnly` is
assigned only in the EPSV ALL branch, and only to `true`. -/
theorem handle_epsvOnly_mono (cfg : Config) (env : Env) (st : SessionState)
    (c : Command) (h : st.epsvOnly = true) :
    ((handle cfg env st c).st).epsvOnly = true := by
  unfold handle handlePostAuth handlePreAuth
  cases hv : verbOf c.cmd <;> dsimp only <;>
    (iterate 8 (all_goals (try split))) <;>
    first
      | exact h
      | rfl
      | (rw [afterXfer_epsvOnly]; exact h)

/-- The loop's post-command state updates never clear the passive-only
lock either. -/
theorem stepLoop_epsvOnly_mono (cfg : Config) (env : Env)
    (st : SessionState) (c : Command) (h : st.epsvOnly = true) :
    (stepLoop cfg st c env).1.epsvOnly = true := by
  have hh := handle_epsvOnly_mono cfg env st c h
  simp only [stepLoop]
  cases hout : (handle cfg env st c).out with
  | fatal e => simpa using hh
  | reply code msg =>
    by_cases hq : c.cmd = "QUIT"
    · simpa [hq] using hh
    · simp only [hq]
      (iterate 3 (all_goals (try split))) <;> simp_all

/-- Over any continuation of the session, the passive-only lock stays
set. -/
theorem run_epsvOnly_mono (cfg : Config) (inputs : List (Command × Env)) :
    ∀ st : SessionState, st.epsvOnly = true →
      (run cfg st inputs).epsvOnly = true := by
  induction inputs with
  | nil => intro st h; simpa [run] using h
  | cons p rest ih =>
    intro st h
    obtain ⟨c, env⟩ := p
    have hmono := stepLoop_epsvOnly_mono cfg env st c h
    rcases hs : stepLoop cfg st c env with ⟨st', out⟩
    rw [hs] at hmono
    cases out with
    | cont code msg => simpa [run, hs] using ih st' hmono
    | quit code msg => simpa [run, hs] using hmono
    | fatal e => simpa [run, hs] using hmono

/-- C5: EPSV "ALL" (case-insensitive) sets the passive-only lock; no
later command ever clears it; while it is set, PASV, PORT, and EPRT
each reply "disallowed" with no negotiation call and no state change,
while EPSV with a valid family argument still succeeds. -/
theorem c5_epsv_all_ratchet :
    (∀ (cfg : Config) (env : Env) (st : SessionState) (m : String),
        st.authed = true → sToUpper m = "ALL" →
        handle cfg env st ⟨"EPSV", m⟩
          = ⟨{ st with epsvOnly := true }, .reply 200 "EPSV ALL ok.", []⟩) ∧
    (∀ (cfg : Config) (inputs : List (Command × Env)) (st : SessionState),
        st.epsvOnly = true → (run cfg st inputs).epsvOnly = true) ∧
    (∀ (cfg : Config) (env : Env) (st : SessionState) (m : String),
        st.authed = true → st.epsvOnly = true →
        handle cfg env st ⟨"PASV", m⟩
            = ⟨st, .reply 550 "PASV is disallowed.", []⟩ ∧
          handle cfg env st ⟨"PORT", m⟩
            = ⟨st, .reply 550 "PORT is disallowed.", []⟩ ∧
          handle cfg env st ⟨"EPRT", m⟩
            = ⟨st, .reply 550 "EPRT is disallowed.", []⟩) ∧
    (∀ (cfg : Config) (env : Env) (st : SessionState),
        st.authed = true → st.epsvOnly = true → env.passiveRes = none →
        handle cfg env st ⟨"EPSV", "1"⟩
          = ⟨{ st with data := true },
              .reply 229
                ("Entering Extended Passive Mode (|||" ++ toString env.port ++ "|)"),
              [.passiveC]⟩) := by
  refine ⟨fun cfg env st m hauth hall => ?_,
    fun cfg inputs st h => run_epsvOnly_mono cfg inputs st h,
    fun cfg env st m hauth hlock => ?_,
    fun cfg env st hauth hlock hp => ?_⟩
  · simp [handle, handlePostAuth, handlePreAuth, hauth, hall]
  · simp [handle, handlePostAuth, handlePreAuth, hauth, hlock]
  · simp [handle, handlePostAuth, handlePreAuth, hauth, hlock, hp,
      show sToUpper "1" = "1" from rfl]

/-- C5 witness: from an authenticated state, EPSV "all" sets the lock;
afterwards PASV is refused with no state change while EPSV "1"
still opens a passive data channel. -/
theorem c5_epsv_all_ratchet_witness :
    handle sampleCfg sampleEnv authedState ⟨"EPSV", "all"⟩
        = ⟨{ authedState with epsvOnly := true },
            .reply 200 "EPSV ALL ok.", []⟩ ∧
    handle sampleCfg sampleEnv { authedState with epsvOnly := true }
        ⟨"PASV", ""⟩
        = ⟨{ authedState with epsvOnly := true },
            .reply 550 "PASV is disallowed.", []⟩ ∧
    handle sampleCfg sampleEnv { authedState with epsvOnly := true }
        ⟨"EPSV", "1"⟩
        = ⟨{ { authedState with epsvOnly := true } with data := true },
            .reply 229 "Entering Extended Passive Mode (|||1025|)",
            [.passiveC]⟩ := by
  refine ⟨?_, ?_, ?_⟩
  · exact c5_epsv_all_ratchet.1 sampleCfg sampleEnv authedState "all"
      rfl (by decide)
  · exact (c5_epsv_all_ratchet.2.2.1 sampleCfg sampleEnv
      { authedState with epsvOnly := true } "" rfl rfl).1
  · exact c5_epsv_all_ratchet.2.2.2 sampleCfg sampleEnv
      { authedState with epsvOnly := true } rfl rfl rfl

/-- C6: for an authenticated session with no established data channel,
each of RETR, STOR, LIST, NLST replies 425 "Use PORT or PASV first."
without opening any filesystem resource, an outcome distinct from every
550 reply. -/
theorem c6_no_data_conn (cfg : Config) (env : Env) (st : SessionState)
    (c : Command) (hauth : st.authed = true) (hd : st.data = false)
    (hc : c.cmd ∈ (["RETR", "STOR", "LIST", "NLST"] : List String)) :
    (handle cfg env st c).out = .reply 425 "Use PORT or PASV first." ∧
    (handle cfg env st c).evs = [] ∧
    ∀ m, (.reply 425 "Use PORT or PASV first." : HOut) ≠ .reply 550 m := by
  simp only [List.mem_cons, List.not_mem_nil, or_false] at hc
  rcases hc with h | h | h | h <;>
    simp [handle, handlePostAuth, handlePreAuth, hauth, hd, h,
      retrieve, store, list]

/-- C6 witness: RETR with no data channel at a concrete state. -/
theorem c6_no_data_conn_witness :
    (handle sampleCfg sampleEnv authedState ⟨"RETR", "f"⟩).out
      = .reply 425 "Use PORT or PASV first." :=
  (c6_no_data_conn sampleCfg sampleEnv authedState ⟨"RETR", "f"⟩
    rfl rfl (by decide)).1

/-- C7 (counterexample): MKD maps a permission-denied error to its
generic 550 "Failed to create directory." rather than 550 "Insufficient
permissions.", and STOR maps a not-found error to its generic 550
"Error storing file." rather than a "no such file" reply. -/
theorem c7_mkd_stor_generic :
    (handle sampleCfg { sampleEnv with mkdirRes := some .permission }
        authedState ⟨"MKD", "d"⟩).out
      = .reply 550 "Failed to create directory." ∧
    (handle sampleCfg
        { sampleEnv with xfer := { sampleXfer with openRes := some .notExist } }
        { authedState with data := true } ⟨"STOR", "f"⟩).out
      = .reply 550 "Error storing file." ∧
    ("Failed to create directory." ≠ "Insufficient permissions.") ∧
    ("Error storing file." ≠ "No such file.") := by
  decide

/-- C7 (amended): for RETR, STOR, LIST, NLST, DELE, RMD, RNTO, CWD,
CDUP, SIZE, and MDTM, a permission-denied filesystem error yields 550
"Insufficient permissions."; for all of these except STOR, a not-found
error yields the command's 550 "no such file/directory"-style reply
(STOR maps not-found to its generic 550, and MKD maps every error to
its generic 550). -/
theorem c7_error_mapping (cfg : Config) (env : Env) (st : SessionState)
    (m : String) (hauth : st.authed = true) :
    (st.data = true → env.xfer.openRes = some .permission →
      (handle cfg env st ⟨"RETR", m⟩).out
          = .reply 550 "Insufficient permissions." ∧
        (handle cfg env st ⟨"STOR", m⟩).out
          = .reply 550 "Insufficient permissions." ∧
        (handle cfg env st ⟨"LIST", m⟩).out
          = .reply 550 "Insufficient permissions." ∧
        (handle cfg env st ⟨"NLST", m⟩).out
          = .reply 550 "Insufficient permissions.") ∧
    (st.data = true → env.xfer.openRes = some .notExist →
      (handle cfg env st ⟨"RETR", m⟩).out = .reply 550 "No such file." ∧
        (handle cfg env st ⟨"LIST", m⟩).out = .reply 550 "No such directory." ∧
        (handle cfg env st ⟨"NLST", m⟩).out = .reply 550 "No such directory.") ∧
    (m ≠ "" → env.removeRes = some .permission →
      (handle cfg env st ⟨"DELE", m⟩).out
          = .reply 550 "Insufficient permissions." ∧
        (handle cfg env st ⟨"RMD", m⟩).out
          = .reply 550 "Insufficient permissions.") ∧
    (m ≠ "" → env.removeRes = some .notExist →
      (handle cfg env st ⟨"DELE", m⟩).out = .reply 550 "No such file." ∧
        (handle cfg env st ⟨"RMD", m⟩).out = .reply 550 "No such file.") ∧
    (m ≠ "" → st.renameFrom ≠ "" → env.renameRes = some .permission →
      (handle cfg env st ⟨"RNTO", m⟩).out
        = .reply 550 "Insufficient permissions.") ∧
    (m ≠ "" → st.renameFrom ≠ "" → env.renameRes = some .notExist →
      (handle cfg env st ⟨"RNTO", m⟩).out = .reply 550 "No such file.") ∧
    (m ≠ "" → env.statRes = .error .permission →
      (handle cfg env st ⟨"CWD", m⟩).out
        = .reply 550 "Insufficient permissions.") ∧
    (m ≠ "" → env.statRes = .error .notExist →
      (handle cfg env st ⟨"CWD", m⟩).out = .reply 550 "No such directory.") ∧
    (env.statRes = .error .permission →
      (handle cfg env st ⟨"CDUP", m⟩).out
          = .reply 550 "Insufficient permissions." ∧
        (handle cfg env st ⟨"SIZE", m⟩).out
          = .reply 550 "Insufficient permissions." ∧
        (handle cfg env st ⟨"MDTM", m⟩).out
          = .reply 550 "Insufficient permissions.") ∧
    (env.statRes = .error .notExist →
      (handle cfg env st ⟨"CDUP", m⟩).out = .reply 550 "No such directory." ∧
        (handle cfg env st ⟨"SIZE", m⟩).out = .reply 550 "No such file." ∧
        (handle cfg env st ⟨"MDTM", m⟩).out
          = .reply 550 "No such file or directory.") := by
  refine ⟨fun hd ho => ?_, fun hd ho => ?_, fun hm hr => ?_, fun hm hr => ?_,
    fun hm hf hr => ?_, fun hm hf hr => ?_, fun hm hs => ?_, fun hm hs => ?_,
    fun hs => ?_, fun hs => ?_⟩ <;>
    simp [handle, handlePostAuth, handlePreAuth, hauth, retrieve, store, list, *]

/-- C7 witness: the uniform mapping at a concrete permission error. -/
theorem c7_error_mapping_witness :
    (handle sampleCfg { sampleEnv with statRes := .error .permission }
        authedState ⟨"SIZE", "f"⟩).out
      = .reply 550 "Insufficient permissions." :=
  ((c7_error_mapping sampleCfg { sampleEnv with statRes := .error .permission }
      authedState "f" rfl).2.2.2.2.2.2.2.2.1 rfl).2.1

/-- C8 (counterexample): on a RETR whose open, provisional reply, and
stream all succeed but whose file close fails, the file-close error is
the first error encountered along the operation, yet `retrieve`
discards it and returns no error — so the first error encountered is
not the one returned. -/
theorem c8_retr_ignores_file_close_error :
    (retrieve { authedState with data := true }
        { sampleXfer with fileCloseRes := some (.other "file close failed") }).err
        = none ∧
    firstErrRetr { authedState with data := true }
        { sampleXfer with fileCloseRes := some (.other "file close failed") }
      = some (.other "file close failed") := by
  decide

/-- C8 (amended): for every RETR, STOR, LIST, or NLST invocation with
an established data channel, the opened resource and the data channel
are closed on every exit path; the first error among open, provisional
reply, seek, and streaming is the one returned; and when those all
succeed, STOR returns the resource-close error while RETR/LIST/NLST
return the data-channel-close error, a RETR/LIST/NLST resource-close
error being discarded. -/
theorem c8_cleanup (st : SessionState) (env : XferEnv)
    (hd : st.data = true) :
    ((retrieve st env).opened = true → (retrieve st env).fileClosed = true) ∧
    (retrieve st env).dataClosed = true ∧
    ((store st env).opened = true → (store st env).fileClosed = true) ∧
    (store st env).dataClosed = true ∧
    ((list st env).opened = true → (list st env).fileClosed = true) ∧
    (list st env).dataClosed = true ∧
    (∀ e, mainErr st env true = some e →
      (retrieve st env).err = some e ∧ (store st env).err = some e) ∧
    (∀ e, mainErr st env false = some e → (list st env).err = some e) ∧
    (mainErr st env true = none →
      (retrieve st env).err = env.dataCloseRes ∧
      (store st env).err = env.fileCloseRes) ∧
    (mainErr st env false = none → (list st env).err = env.dataCloseRes) := by
  rcases ho : env.openRes with _ | e1 <;>
    rcases hr : env.replyRes with _ | e2 <;>
    rcases hs : env.seekRes with _ | e3 <;>
    rcases hc : env.copyRes with _ | e4 <;>
    by_cases hp : 0 < st.restart <;>
    simp [retrieve, store, list, mainErr, hd, ho, hr, hs, hc, hp]

/-- C8 witness: cleanup and first-error selection at a concrete failing
seek. -/
theorem c8_cleanup_witness :
    (retrieve { authedState with data := true, restart := 3 }
          { sampleXfer with seekRes := some (.other "seek failed") }).dataClosed
        = true ∧
    (retrieve { authedState with data := true, restart := 3 }
          { sampleXfer with seekRes := some (.other "seek failed") }).err
        = some (.other "seek failed") := by
  refine ⟨(c8_cleanup { authedState with data := true, restart := 3 }
      { sampleXfer with seekRes := some (.other "seek failed") } rfl).2.1, ?_⟩
  exact ((c8_cleanup { authedState with data := true, restart := 3 }
      { sampleXfer with seekRes := some (.other "seek failed") } rfl).2.2.2.2.2.2.1
    (.other "seek failed") (by decide)).1

/-- The digit characters produced by the timestamp formatter are
decimal digits. -/
theorem digit_isDigit (n : Nat) : (digit n).isDigit = true := by
  have h : n % 10 < 10 := Nat.mod_lt _ (by norm_num)
  unfold digit
  set k := n % 10 with hk
  interval_cases k <;> decide

/-- The character list behind a formatted timestamp: four year digits,
then two digits for each remaining field. -/
theorem formatMdtm_data (t : DateTime) :
    (formatMdtm t).data
      = [digit (t.year / 1000), digit (t.year / 100), digit (t.year / 10),
          digit t.year, digit (t.month / 10), digit t.month,
          digit (t.day / 10), digit t.day, digit (t.hour / 10), digit t.hour,
          digit (t.minute / 10), digit t.minute, digit (t.second / 10),
          digit t.second] := rfl

/-- A formatted timestamp always has exactly 14 characters. -/
theorem formatMdtm_length (t : DateTime) : (formatMdtm t).length = 14 := rfl

/-- Every character of a formatted timestamp is a decimal digit. -/
theorem formatMdtm_digits (t : DateTime) :
    ∀ ch ∈ (formatMdtm t).data, ch.isDigit = true := by
  intro ch hch
  rw [formatMdtm_data] at hch
  simp only [List.mem_cons, List.not_mem_nil, or_false] at hch
  rcases hch with rfl|rfl|rfl|rfl|rfl|rfl|rfl|rfl|rfl|rfl|rfl|rfl|rfl|rfl <;>
    exact digit_isDigit _

/-- C9 (counterexample): MDTM on an existing directory does not
succeed — the handler lumps `stat.IsDir()` into the same branch as a
generic stat error and replies 550 "Could not get size.". -/
theorem c9_mdtm_dir_rejected :
    (handle sampleCfg
        { sampleEnv with statRes := .ok ⟨"d", 0, true, ⟨2020, 1, 2, 3, 4, 5⟩⟩ }
        authedState ⟨"MDTM", "d"⟩).out
      = .reply 550 "Could not get size." ∧
    ∀ msg, (.reply 550 "Could not get size." : HOut) ≠ .reply 213 msg := by
  refine ⟨by decide, fun msg => by simp⟩

/-- C9 (amended): SIZE and MDTM require the target path to exist and
both reject directories (SIZE with 550 "Path specifies a directory.",
MDTM with 550 "Could not get size."); MDTM on an existing file replies
213 with the modification time formatted as the fixed 14-digit numeric
timestamp YYYYMMDDhhmmss. -/
theorem c9_metadata (cfg : Config) (env : Env) (st : SessionState)
    (m : String) (hauth : st.authed = true) :
    (env.statRes = .error .notExist →
      (handle cfg env st ⟨"SIZE", m⟩).out = .reply 550 "No such file." ∧
        (handle cfg env st ⟨"MDTM", m⟩).out
          = .reply 550 "No such file or directory.") ∧
    (∀ info, env.statRes = .ok info → info.isDir = true →
      (handle cfg env st ⟨"SIZE", m⟩).out
          = .reply 550 "Path specifies a directory." ∧
        (handle cfg env st ⟨"MDTM", m⟩).out = .reply 550 "Could not get size.") ∧
    (∀ info, env.statRes = .ok info → info.isDir = false →
      (handle cfg env st ⟨"SIZE", m⟩).out = .reply 213 (toString info.size) ∧
        (handle cfg env st ⟨"MDTM", m⟩).out
          = .reply 213 (formatMdtm info.modTime)) ∧
    (∀ t : DateTime, (formatMdtm t).length = 14 ∧
      ∀ ch ∈ (formatMdtm t).data, ch.isDigit = true) := by
  refine ⟨fun hs => ?_, fun info hs hd => ?_, fun info hs hd => ?_,
    fun t => ⟨formatMdtm_length t, formatMdtm_digits t⟩⟩
  · simp [handle, handlePostAuth, handlePreAuth, hauth, hs]
  · simp [handle, handlePostAuth, handlePreAuth, hauth, hs, hd]
  · simp [handle, handlePostAuth, handlePreAuth, hauth, hs, hd]

/-- C9 witness: MDTM on a concrete existing file yields the 14-digit
timestamp. -/
theorem c9_metadata_witness :
    (handle sampleCfg sampleEnv authedState ⟨"MDTM", "f"⟩).out
      = .reply 213 "20200102030405" := by
  have h := ((c9_metadata sampleCfg sampleEnv authedState "f" rfl).2.2.1
    ⟨"f", 5, false, ⟨2020, 1, 2, 3, 4, 5⟩⟩ rfl rfl).2
  exact h.trans (by decide)

/-- Inversion for the REST verb. -/
theorem verbOf_iff_rest (s : String) : verbOf s = Verb.rest ↔ s = "REST" := by
  unfold verbOf
  constructor
  · intro h; split at h <;> simp_all
  · intro h; subst h; simp

/-- Commands other than REST never assign the restart offset. -/
theorem handle_restart_eq (cfg : Config) (env : Env) (st : SessionState)
    (c : Command) (hne : c.cmd ≠ "REST") :
    ((handle cfg env st c).st).restart = st.restart := by
  unfold handle handlePostAuth handlePreAuth
  cases hv : verbOf c.cmd <;> dsimp only <;>
    (iterate 8 (all_goals (try split))) <;>
    first
      | rfl
      | (rw [afterXfer_restart])
      | simp_all [verbOf_iff_rest]

/-- Every handler branch leaves the restart offset non-negative: only
the REST branch assigns it, after rejecting negative values. -/
theorem handle_restart_nonneg (cfg : Config) (env : Env)
    (st : SessionState) (c : Command) (h : 0 ≤ st.restart) :
    0 ≤ ((handle cfg env st c).st).restart := by
  unfold handle handlePostAuth handlePreAuth
  cases hv : verbOf c.cmd <;> dsimp only <;>
    (iterate 8 (all_goals (try split))) <;>
    first
      | exact h
      | (rw [afterXfer_restart]; exact h)
      | (dsimp only; omega)

/-- The loop's post-command updates keep the offset non-negative. -/
theorem stepLoop_restart_nonneg (cfg : Config) (env : Env)
    (st : SessionState) (c : Command) (h : 0 ≤ st.restart) :
    0 ≤ (stepLoop cfg st c env).1.restart := by
  have hh := handle_restart_nonneg cfg env st c h
  simp only [stepLoop]
  cases hout : (handle cfg env st c).out with
  | fatal e => simpa using hh
  | reply code msg =>
    by_cases hq : c.cmd = "QUIT"
    · simpa [hq] using hh
    · simp only [hq]
      (iterate 3 (all_goals (try split))) <;> simp_all

/-- The offset stays non-negative over any continuation of the
session. -/
theorem run_restart_nonneg (cfg : Config) (inputs : List (Command × Env)) :
    ∀ st : SessionState, 0 ≤ st.restart →
      0 ≤ (run cfg st inputs).restart := by
  induction inputs with
  | nil => intro st h; simpa [run] using h
  | cons p rest ih =>
    intro st h
    obtain ⟨c, env⟩ := p
    have hmono := stepLoop_restart_nonneg cfg env st c h
    rcases hs : stepLoop cfg st c env with ⟨st', out⟩
    rw [hs] at hmono
    cases out with
    | cont code msg => simpa [run, hs] using ih st' hmono
    | quit code msg => simpa [run, hs] using hmono
    | fatal e => simpa [run, hs] using hmono

/-- C10: the pending restart offset is non-negative in every reachable
session state — it starts at zero, no command other than REST assigns
it, every handler branch keeps it non-negative (REST rejects negative
values), the loop resets it to zero after every continuing non-REST
command, and it is non-negative after any run from the initial
state. -/
theorem c10_restart_invariant :
    initState.restart = 0 ∧
    (∀ (cfg : Config) (env : Env) (st : SessionState) (c : Command),
        c.cmd ≠ "REST" → ((handle cfg env st c).st).restart = st.restart) ∧
    (∀ (cfg : Config) (env : Env) (st : SessionState) (c : Command),
        0 ≤ st.restart → 0 ≤ ((handle cfg env st c).st).restart) ∧
    (∀ (cfg : Config) (env : Env) (st : SessionState) (c : Command)
        (code : Nat) (msg : String), c.cmd ≠ "REST" →
        (stepLoop cfg st c env).2 = .cont code msg →
        (stepLoop cfg st c env).1.restart = 0) ∧
    (∀ (cfg : Config) (inputs : List (Command × Env)),
        0 ≤ (run cfg initState inputs).restart) :=
  ⟨rfl, handle_restart_eq, handle_restart_nonneg, stepLoop_clears_restart,
    fun cfg inputs => run_restart_nonneg cfg inputs initState (by decide)⟩

/-- C10 witness: a non-REST command leaves a concrete offset in place
at handler level, and a concrete run ends with a non-negative offset. -/
theorem c10_restart_invariant_witness :
    ((handle sampleCfg sampleEnv { authedState with restart := 5 }
        ⟨"NOOP", ""⟩).st).restart = 5 ∧
    0 ≤ (run sampleCfg initState
        [(⟨"USER", "u"⟩, sampleEnv), (⟨"PASS", "p"⟩, sampleEnv),
          (⟨"REST", "9"⟩, sampleEnv)]).restart :=
  ⟨c10_restart_invariant.2.1 sampleCfg sampleEnv
      { authedState with restart := 5 } ⟨"NOOP", ""⟩ (by decide),
    c10_restart_invariant.2.2.2.2 sampleCfg
      [(⟨"USER", "u"⟩, sampleEnv), (⟨"PASS", "p"⟩, sampleEnv),
        (⟨"REST", "9"⟩, sampleEnv)]⟩

end Ftp
